import Mathlib

/-!
Verification of the WhatsApp watch-sale extraction pipeline
(`app.py`, `src/embedding_processor.py`, `src/llm_watch_extractor.py`,
`src/watch_info_extractor.py`, `src/rag_searcher.py`).

The Python code is shallowly embedded: strings are Lean `String`s,
Python `float` scores are modelled as `ℚ` (all score arithmetic in the
source is finite sums and one division, exactly representable), Python
`None`-able values are `Option`s, Python dictionaries used as records
are Lean structures.  Python truthiness (`if x:`) is made explicit:
`None`/`""`/`0`/`0.0`/empty list are falsy.
-/

namespace WhatsappServer

/-! ### Python string primitives -/
/-- Python whitespace for `str.split()` / `str.strip()` / regex `\s`:
space, tab, newline, carriage return, vertical tab, form feed.
(Exotic unicode whitespace is not modelled; no input here uses it.) -/
def isPyWs (c : Char) : Bool :=
  c = ' ' || c = '\t' || c = '\n' || c = '\r' ||
  c = Char.ofNat 11 || c = Char.ofNat 12

/-- `needle` occurs at the head of `hay`. -/
def startsList (needle hay : List Char) : Bool :=
  match needle, hay with
  | [], _ => true
  | _ :: _, [] => false
  | n :: ns, h :: hs => n = h && startsList ns hs

def strInAux (needle : List Char) : List Char → Bool
  | [] => startsList needle []
  | c :: cs => startsList needle (c :: cs) || strInAux needle cs

/-- Python `needle in hay` (substring containment). -/
def strIn (needle hay : String) : Bool :=
  strInAux needle.data hay.data

/-- Python `str.lower()` (ASCII letters; accented letters in the
source vocabularies are already lower-case). -/
def pyLower (s : String) : String :=
  String.mk (s.data.map Char.toLower)

/-- Python `str.upper()` (ASCII letters). -/
def pyUpper (s : String) : String :=
  String.mk (s.data.map Char.toUpper)

/-- Python `str.strip()`. -/
def pyStrip (s : String) : String :=
  String.mk (((s.data.dropWhile isPyWs).reverse.dropWhile isPyWs).reverse)

/-- Helper for `pyWords`: accumulate the current word (reversed). -/
def pyWordsAux : List Char → List Char → List String
  | [], acc => if acc.isEmpty then [] else [String.mk acc.reverse]
  | c :: cs, acc =>
    if isPyWs c then
      (if acc.isEmpty then [] else [String.mk acc.reverse]) ++ pyWordsAux cs []
    else pyWordsAux cs (c :: acc)

/-- Python `str.split()` — split on whitespace runs, no empty pieces. -/
def pyWords (s : String) : List String :=
  pyWordsAux s.data []

/-- Python `sep.join(parts)`. -/
def pyJoin (sep : String) : List String → String
  | [] => ""
  | [x] => x
  | x :: y :: rest => x ++ sep ++ pyJoin sep (y :: rest)

/-- Python truthiness of an optional string (`None` and `""` falsy). -/
def optStrTruthy : Option String → Bool
  | none => false
  | some s => s ≠ ""

/-- Python truthiness of an optional number (`None` and `0.0` falsy). -/
def optRatTruthy : Option ℚ → Bool
  | none => false
  | some q => q ≠ 0

/-- Python truthiness of an optional integer (`None` and `0` falsy). -/
def optIntTruthy : Option Int → Bool
  | none => false
  | some n => n ≠ 0

/-! ### `app.py` — `_calculate_sentiment_score` (lines 550-568) -/
def positive_words : List String :=
  ["excellent", "parfait", "superbe", "magnifique", "neuf", "impeccable",
   "great", "perfect"]

def negative_words : List String :=
  ["problème", "défaut", "cassé", "rayé", "usé", "abîmé", "broken", "damaged"]

def neutral_words : List String :=
  ["correct", "standard", "normal", "moyen", "acceptable"]

/-- `sum(1 for word in words if word in content_lower)`. -/
def countHits (words : List String) (contentLower : String) : Nat :=
  (words.filter (fun w => strIn w contentLower)).length

/-- `_calculate_sentiment_score(content, semantic_meta)` — the
`semantic_meta` argument is unused in the source body. -/
def calculateSentimentScore (content : String) : ℚ :=
  let contentLower := pyLower content
  let positiveCount := countHits positive_words contentLower
  let negativeCount := countHits negative_words contentLower
  let neutralCount := countHits neutral_words contentLower
  let totalWords := positiveCount + negativeCount + neutralCount
  if totalWords = 0 then 0
  else
    let score : ℚ := ((positiveCount : ℚ) - (negativeCount : ℚ)) / (totalWords : ℚ)
    max (-1) (min 1 score)

/-! ### `app.py` — `_calculate_urgency_level` (lines 570-591) -/
def high_urgency_words : List String :=
  ["urgent", "rapidement", "vite", "asap", "immédiatement"]

/-- `_calculate_urgency_level(content, semantic_meta)` — the
`semantic_meta` argument is unused in the source body. -/
def calculateUrgencyLevel (content : String) : Nat :=
  let contentLower := pyLower content
  let level0 : Nat :=
    if high_urgency_words.any (fun w => strIn w contentLower) then 3 else 0
  let level1 : Nat :=
    if 2 ≤ content.data.count '!' then level0 + 2
    else if '!' ∈ content.data then level0 + 1
    else level0
  let level2 : Nat := if (pyWords content).length < 10 then level1 + 1 else level1
  min 5 level2

/-! ### `app.py` — sentiment/urgency fallback in
`create_message_embedding_from_watch_info` (lines 284-288):
`sentiment_score=_calculate_sentiment_score(...) or normalized_watch.get('sentiment_score')`
`urgency_level=_calculate_urgency_level(...) or normalized_watch.get('urgency_level', 0)` -/
/-- Python `x or y` where `x` is the computed float score: `0.0` is falsy.
`watchSentiment` is `normalized_watch.get('sentiment_score')` (always `None`
in practice: neither extractor dataclass has the field). -/
def storedSentimentScore (content : String) (watchSentiment : Option ℚ) : Option ℚ :=
  let s := calculateSentimentScore content
  if s ≠ 0 then some s else watchSentiment

/-- Python `x or y` where `x` is the computed urgency: `0` is falsy.
`watchUrgency` is `normalized_watch.get('urgency_level', 0)` with the
key present only for the LLM extractor. -/
def storedUrgencyLevel (content : String) (watchUrgency : Option Nat) : Nat :=
  let u := calculateUrgencyLevel content
  if u ≠ 0 then u else watchUrgency.getD 0

/-! ### `app.py` — message_type resolution in
`create_message_embedding_from_watch_info` (lines 225-234) -/
/-- The five intent-signal booleans of `semantic_metadata['intent_signals']`. -/
structure IntentSignals where
  is_selling : Bool := false
  is_seeking : Bool := false
  is_question : Bool := false
  is_greeting : Bool := false
  has_urgency : Bool := false
deriving DecidableEq

/-- Lines 225-234:
`message_type = 'general'`;
`if normalized_watch.get('message_type'): message_type = ...`;
`elif is_selling: 'sale' elif is_seeking: 'wanted' elif is_question: 'question'`.
`watchMessageType` is `normalized_watch.get('message_type')` — `none` when no
watch_info was supplied; both extractor dataclasses default the field to
`"general"` (a non-empty, hence Python-truthy, string). -/
def mergedMessageType (watchMessageType : Option String) (sig : IntentSignals) : String :=
  if optStrTruthy watchMessageType then watchMessageType.getD "general"
  else if sig.is_selling then "sale"
  else if sig.is_seeking then "wanted"
  else if sig.is_question then "question"
  else "general"

/-! ### `src/rag_searcher.py` — `generate_query_embedding` (lines 69-100) -/
/-- Python dict lookup over the ordered association list underlying the
cache (Python 3.7+ dicts preserve insertion order; oldest entry first). -/
def lookupCache {α : Type} (cache : List (String × α)) (k : String) : Option α :=
  (cache.find? (fun p => p.1 = k)).map (fun p => p.2)

/-- `generate_query_embedding(query)`: cached vector on a hit; on a miss the
external embedding service is called on `query.strip()`; on success, if the
cache already holds at least 100 entries, the first (oldest-inserted) key is
deleted (`next(iter(dict))`) before the new entry is appended; any external
exception yields `None` with the cache unchanged.  The embedding vector type
is a parameter `α`. -/
def generateQueryEmbedding {α : Type} (oracle : String → Except String α)
    (cache : List (String × α)) (query : String) :
    Option α × List (String × α) :=
  match lookupCache cache query with
  | some e => (some e, cache)
  | none =>
    match oracle (pyStrip query) with
    | .error _ => (none, cache)
    | .ok emb =>
      let cache1 := if 100 ≤ cache.length then cache.drop 1 else cache
      (some emb, cache1 ++ [(query, emb)])

/-- A concrete full cache (100 distinct keys) for the C10 witness. -/
def witnessCache : List (String × Nat) :=
  (List.range 100).map (fun i => (String.mk (List.replicate i 'a'), i))

/-! ### `src/embedding_processor.py` — `_create_enhanced_text_for_embedding`
(lines 210-298) -/
/-- The metadata dictionary consumed by the enhanced-text builder, with the
nested `semantic_metadata` blocks flattened into one record.  `Option String`
fields model `dict.get`: `none` is an absent key (a key explicitly bound to
Python `None` is also modelled as absent). -/
structure EnhancedMeta where
  is_group_message : Bool := false
  sender_profile_name : Option String := none
  sender_formatted_name : Option String := none
  group_context_indicators : List String := []
  is_selling : Bool := false
  is_seeking : Bool := false
  is_question : Bool := false
  has_urgency : Bool := false
  has_price : Bool := false
  has_phone : Bool := false
  has_urls : Bool := false
  language_hints : List String := []
  is_business_hours : Bool := false
  is_reply : Bool := false
  has_context : Bool := false
deriving DecidableEq

/-- Python `a or b` on two optional strings (`None` and `""` falsy). -/
def pyOrStr (a b : Option String) : Option String :=
  if optStrTruthy a then a else b

/-- `f"[GROUPE: {metadata.get('sender_profile_name', 'Groupe')}]"`. -/
def groupTag (m : EnhancedMeta) : String :=
  "[GROUPE: " ++ m.sender_profile_name.getD "Groupe" ++ "]"

/-- The `detected_intents` list (lines 238-247). -/
def detectedIntents (m : EnhancedMeta) : List String :=
  (if m.is_selling then ["VENTE"] else [])
    ++ (if m.is_seeking then ["RECHERCHE"] else [])
    ++ (if m.is_question then ["QUESTION"] else [])
    ++ (if m.has_urgency then ["URGENT"] else [])

/-- The `commercial_context` list (lines 254-263). -/
def commercialContext (m : EnhancedMeta) : List String :=
  (if m.has_price then ["PRIX"] else [])
    ++ (if m.has_phone then ["CONTACT"] else [])
    ++ (if m.has_urls then ["LIEN"] else [])

/-- `enhanced_parts` after all appends (lines 216-283). -/
def assembledParts (t : String) (m : EnhancedMeta) : List String :=
  [t]
    ++ (if m.is_group_message then
          [groupTag m]
            ++ (if m.group_context_indicators ≠ [] then
                  ["[CONTEXTE: " ++ pyJoin ", " (m.group_context_indicators.take 2) ++ "]"]
                else [])
        else [])
    ++ (if optStrTruthy (pyOrStr m.sender_formatted_name m.sender_profile_name) then
          ["[EXPÉDITEUR: " ++ (pyOrStr m.sender_formatted_name m.sender_profile_name).getD "" ++ "]"]
        else [])
    ++ (if detectedIntents m ≠ [] then
          ["[INTENTION: " ++ pyJoin ", " (detectedIntents m) ++ "]"]
        else [])
    ++ (if commercialContext m ≠ [] then
          ["[COMMERCIAL: " ++ pyJoin ", " (commercialContext m) ++ "]"]
        else [])
    ++ (match m.language_hints with
        | [] => []
        | h :: _ => ["[LANGUE: " ++ pyUpper h ++ "]"])
    ++ (if m.is_business_hours then ["[HEURES_OUVRABLES]"] else [])
    ++ (if m.is_reply then ["[RÉPONSE]"] else [])
    ++ (if m.has_context then ["[THREAD]"] else [])

/-- `enhanced_text = " ".join(enhanced_parts)` (line 286). -/
def assembledText (t : String) (m : EnhancedMeta) : String :=
  pyJoin " " (assembledParts t m)

/-- Python slicing `s[:n]`. -/
def truncateTo (n : Nat) (s : String) : String :=
  String.mk (s.data.take n)

/-- `priority_metadata` of the over-budget fallback (lines 291-295): the
group tag when `is_group_message`, AND the first detected intent when any —
both, not one or the other. -/
def priorityTags (m : EnhancedMeta) : List String :=
  (if m.is_group_message then [groupTag m] else [])
    ++ (match detectedIntents m with
        | [] => []
        | i :: _ => ["[INTENTION: " ++ i ++ "]"])

/-- `_create_enhanced_text_for_embedding(original_text, metadata)`:
`none` models a falsy (`None`/empty) metadata argument, which returns the
original text unchanged; otherwise the assembled text, with the two-tier
fallback when it exceeds `max_length = 8000`. -/
def createEnhancedText (t : String) (meta : Option EnhancedMeta) : String :=
  match meta with
  | none => t
  | some m =>
    let e := assembledText t m
    if 8000 < e.length then
      truncateTo 8000 (t ++ " " ++ pyJoin " " (priorityTags m))
    else e

/-- A 4000-character group indicator for the C3 counterexample. -/
def bigIndicatorX : String := String.mk (List.replicate 4000 'x')

/-- A second 4000-character group indicator for the C3 counterexample. -/
def bigIndicatorY : String := String.mk (List.replicate 4000 'y')

/-- C3 counterexample metadata: a group message with huge context
indicators (driving the assembled text over budget) and a selling intent. -/
def cexMeta : EnhancedMeta :=
  { is_group_message := true
    sender_profile_name := some "Club"
    group_context_indicators := [bigIndicatorX, bigIndicatorY]
    is_selling := true }

/-- C3 witness metadata: another over-budget group message, with a seeking
intent. -/
def witMeta : EnhancedMeta :=
  { is_group_message := true
    sender_profile_name := some "Equipe"
    group_context_indicators :=
      [String.mk (List.replicate 4100 'z'), String.mk (List.replicate 4100 'w')]
    is_seeking := true }

/-! ### `src/llm_watch_extractor.py` — `LLMWatchExtractor` (lines 81-390)

The external completion call (`openai...create` + `json.loads` +
prompt construction) is the black-box boundary: it is modelled as an
oracle `String → Option LLMMeta → Except String LLMResponse`, where
`Except.error e` covers both a raised exception and unparseable JSON
(`str(e)` of the Python exception is the carried string), and
`LLMResponse` is the parsed JSON object shape the prompt requests
(each `.get`-defaulted group modelled as a record of optional fields;
a missing group equals the all-`none` record, matching `.get(key, {})`). -/

/-- The two envelope fields `_generate_cache_key` reads (lines 315-326);
`none` means the key is absent from the metadata dict. -/
structure LLMMeta where
  sender_profile_name : Option String := none
  is_group_message : Option Bool := none
deriving DecidableEq

/-- Python `str(bool)`. -/
def pyBoolStr (b : Bool) : String := if b then "True" else "False"

/-- `_generate_cache_key` (lines 315-326): the md5 hexdigest of
`message_content` + (when the metadata dict is truthy)
`str(metadata.get('sender_profile_name', ''))` +
`str(metadata.get('is_group_message', False))`.  The md5 digest is
modelled as the identity on the hashed content (md5 is assumed
collision-free; equal keys correspond exactly to equal hashed content). -/
def generateCacheKey (messageContent : String) (meta : Option LLMMeta) : String :=
  match meta with
  | none => messageContent
  | some m =>
    messageContent ++ m.sender_profile_name.getD ""
      ++ pyBoolStr (m.is_group_message.getD false)

/-- `watch_details` group of the parsed LLM JSON. -/
structure RespWatchDetails where
  brand : Option String := none
  model : Option String := none
  reference : Option String := none
  collection : Option String := none
  price : Option ℚ := none
  currency : Option String := none
  price_type : Option String := none
  condition : Option String := none
  condition_details : Option String := none
  year : Option Int := none
  size : Option String := none
  movement_type : Option String := none
  material : Option String := none
  dial_color : Option String := none
deriving DecidableEq

/-- `accessories` group of the parsed LLM JSON. -/
structure RespAccessories where
  has_box : Option Bool := none
  has_papers : Option Bool := none
  has_warranty : Option Bool := none
  authenticity_mentioned : Option Bool := none
  accessories_list : Option (List String) := none
deriving DecidableEq

/-- `sale_info` group of the parsed LLM JSON. -/
structure RespSaleInfo where
  message_type : Option String := none
  seller_type : Option String := none
  location : Option String := none
  shipping_available : Option Bool := none
  urgency_level : Option Int := none
  negotiable : Option Bool := none
  seller_motivation : Option String := none
deriving DecidableEq

/-- `extraction_metadata` group of the parsed LLM JSON. -/
structure RespMetadata where
  confidence_score : Option ℚ := none
  extracted_segments : Option (List String) := none
  reasoning : Option String := none
deriving DecidableEq

/-- The parsed LLM JSON object (`llm_response`); a group key missing from
the JSON is the all-default record, matching `.get('...', {})`. -/
structure LLMResponse where
  watch_details : RespWatchDetails := {}
  accessories : RespAccessories := {}
  sale_info : RespSaleInfo := {}
  extraction_metadata : RespMetadata := {}
deriving DecidableEq

/-- The `LLMWatchInfo` dataclass (lines 19-79), with the dataclass
defaults (`__post_init__` turns the `None` lists into `[]`). -/
structure LLMWatchInfo where
  brand : Option String := none
  model : Option String := none
  reference : Option String := none
  collection : Option String := none
  price : Option ℚ := none
  currency : String := "EUR"
  price_type : Option String := none
  original_price : Option ℚ := none
  condition : Option String := none
  condition_details : Option String := none
  year : Option Int := none
  age_category : Option String := none
  size : Option String := none
  movement_type : Option String := none
  material : Option String := none
  dial_color : Option String := none
  has_box : Option Bool := none
  has_papers : Option Bool := none
  has_warranty : Option Bool := none
  authenticity_mentioned : Bool := false
  accessories_list : List String := []
  seller_type : Option String := none
  location : Option String := none
  shipping_available : Option Bool := none
  shipping_details : Option String := none
  message_type : String := "general"
  urgency_level : Int := 0
  negotiable : Option Bool := none
  seller_motivation : Option String := none
  investment_mention : Option Bool := none
  confidence_score : ℚ := 0
  extraction_method : String := "llm"
  extracted_text_segments : List String := []
  llm_reasoning : Option String := none
deriving DecidableEq

/-- `_convert_llm_response_to_watch_info` (lines 252-306), success path:
field-by-field mapping of the nested groups with `.get` defaults.  (In
this embedding the mapping itself cannot raise, so the function's own
`except` branch is unreachable.) -/
def convertLLMResponse (r : LLMResponse) : LLMWatchInfo :=
  { brand := r.watch_details.brand
    model := r.watch_details.model
    reference := r.watch_details.reference
    collection := r.watch_details.collection
    price := r.watch_details.price
    currency := r.watch_details.currency.getD "EUR"
    price_type := r.watch_details.price_type
    condition := r.watch_details.condition
    condition_details := r.watch_details.condition_details
    year := r.watch_details.year
    size := r.watch_details.size
    movement_type := r.watch_details.movement_type
    material := r.watch_details.material
    dial_color := r.watch_details.dial_color
    has_box := r.accessories.has_box
    has_papers := r.accessories.has_papers
    has_warranty := r.accessories.has_warranty
    authenticity_mentioned := r.accessories.authenticity_mentioned.getD false
    accessories_list := r.accessories.accessories_list.getD []
    message_type := r.sale_info.message_type.getD "general"
    seller_type := r.sale_info.seller_type
    location := r.sale_info.location
    shipping_available := r.sale_info.shipping_available
    urgency_level := r.sale_info.urgency_level.getD 0
    negotiable := r.sale_info.negotiable
    seller_motivation := r.sale_info.seller_motivation
    confidence_score := r.extraction_metadata.confidence_score.getD 0
    extraction_method := "llm"
    extracted_text_segments := r.extraction_metadata.extracted_segments.getD []
    llm_reasoning := r.extraction_metadata.reasoning }

/-- The zero-confidence record returned by the `except` branch of
`extract_watch_info` (lines 150-156). -/
def extractionErrorInfo (e : String) : LLMWatchInfo :=
  { confidence_score := 0
    llm_reasoning := some ("Erreur d'extraction: " ++ e) }

/-- `extract_watch_info(message_content, whatsapp_metadata)` (lines
109-148) over an explicit cache state.  Returns the record, the new cache,
and the number of external completion calls issued (0 or 1).  On a cache
hit the external call is skipped entirely; on an external error the error
record is returned but NOT cached (the `except` branch does not write the
cache); on success the converted record is cached under the key. -/
def extractWatchInfo (oracle : String → Option LLMMeta → Except String LLMResponse)
    (cache : List (String × LLMWatchInfo)) (messageContent : String)
    (meta : Option LLMMeta) :
    LLMWatchInfo × List (String × LLMWatchInfo) × Nat :=
  let key := generateCacheKey messageContent meta
  match lookupCache cache key with
  | some info => (info, cache, 0)
  | none =>
    match oracle messageContent meta with
    | .error e => (extractionErrorInfo e, cache, 1)
    | .ok resp =>
      let info := convertLLMResponse resp
      (info, cache ++ [(key, info)], 1)

/-- Two sequential `extract_watch_info` calls on the same extractor with
identical arguments, starting from an empty cache (a fresh extractor):
returns both records and the total number of external calls. -/
def extractTwice (oracle : String → Option LLMMeta → Except String LLMResponse)
    (messageContent : String) (meta : Option LLMMeta) :
    LLMWatchInfo × LLMWatchInfo × Nat :=
  let r1 := extractWatchInfo oracle [] messageContent meta
  let r2 := extractWatchInfo oracle r1.2.1 messageContent meta
  (r1.1, r2.1, r1.2.2 + r2.2.2)

/-! ### `src/watch_info_extractor.py` — `WatchInfoExtractor` (lines 40-334)

The regular expressions of the source are hand-compiled into scanning
matchers with `re.search` semantics: try every start position left to
right; at each position `\d{1,6}` is greedy with backtracking (longest
first), `\s*` and `[:\s]*` are greedy without backtracking (in every
pattern they are followed by a literal that no whitespace/colon char can
begin, so greedy matching is exact), and `re.IGNORECASE` literals compare
lower-cased characters. -/

/-- The `watch_brands` vocabulary.  The source keeps it in a Python `set`
(unspecified iteration order); this list preserves the order of the source
literal.  On any input where at most one brand occurs as a substring —
such as the scenario below — the iteration order is irrelevant. -/
def watch_brands : List String :=
  ["rolex", "omega", "seiko", "casio", "citizen", "tissot",
   "tag heuer", "breitling", "iwc", "cartier", "patek philippe",
   "audemars piguet", "vacheron constantin", "jaeger-lecoultre",
   "panerai", "hublot", "zenith", "tudor", "longines", "hamilton",
   "oris", "frederique constant", "mont blanc", "baume mercier",
   "chopard", "maurice lacroix", "mido", "swatch", "fossil",
   "diesel", "armani", "michael kors", "daniel wellington",
   "mvmt", "garmin", "suunto", "apple watch", "samsung gear"]

/-- Helper for `pyTitle`: the flag records whether the previous character
was a letter. -/
def pyTitleAux : Bool → List Char → List Char
  | _, [] => []
  | prevAlpha, c :: cs =>
    if c.isAlpha then
      (if prevAlpha then c.toLower else c.toUpper) :: pyTitleAux true cs
    else c :: pyTitleAux false cs

/-- Python `str.title()` (ASCII letters; the brand vocabulary is ASCII). -/
def pyTitle (s : String) : String :=
  String.mk (pyTitleAux false s.data)

/-- `_extract_brand` (lines 164-170): first vocabulary brand occurring as
a substring of the lowered message, returned title-cased. -/
def extractBrand (messageLower : String) : Option String :=
  watch_brands.findSome?
    (fun b => if strIn b messageLower then some (pyTitle b) else none)

def strFindIdxAux (needle : List Char) : List Char → Nat → Option Nat
  | [], i => if startsList needle [] then some i else none
  | c :: cs, i =>
    if startsList needle (c :: cs) then some i
    else strFindIdxAux needle cs (i + 1)

/-- Python `hay.find(needle)`, with `none` for -1. -/
def strFindIdx (hay needle : String) : Option Nat :=
  strFindIdxAux needle.data hay.data 0

/-- The skip vocabulary of `_extract_model` (line 189). -/
def model_skip_words : List String := ["prix", "euro", "€", "vend", "cherche"]

/-- `_extract_model` (lines 172-192): up to 3 whitespace-delimited words
after the brand occurrence, minus words containing skip vocabulary. -/
def extractModel (message : String) (brand : Option String) : Option String :=
  if !optStrTruthy brand then none
  else
    let b := brand.getD ""
    match strFindIdx (pyLower message) (pyLower b) with
    | none => none
    | some pos =>
      let afterBrand := pyStrip (String.mk (message.data.drop (pos + b.length)))
      let words := (pyWords afterBrand).take 3
      let modelWords := words.filter
        (fun w => !(model_skip_words.any (fun sk => strIn sk (pyLower w))))
      if modelWords = [] then none else some (pyJoin " " modelWords)

/-- Greedy `\d{1,k}` at the head of `cs`, longest first, backtracking into
`cont` (which receives the captured digits and the remainder). -/
def tryDigitsDown {α : Type} (cs : List Char) (k : Nat)
    (cont : List Char → List Char → Option α) : Option α :=
  match k with
  | 0 => none
  | j + 1 =>
    if j + 1 ≤ cs.length && (cs.take (j + 1)).all Char.isDigit then
      match cont (cs.take (j + 1)) (cs.drop (j + 1)) with
      | some r => some r
      | none => tryDigitsDown cs j cont
    else tryDigitsDown cs j cont

/-- Case-insensitive literal match at the head of `cs`; returns the
consumed original-case prefix and the remainder. -/
def matchLitCI : List Char → List Char → Option (List Char × List Char)
  | [], rest => some ([], rest)
  | _ :: _, [] => none
  | l :: ls, c :: cs =>
    if c.toLower = l.toLower then
      match matchLitCI ls cs with
      | some (con, rest) => some (c :: con, rest)
      | none => none
    else none

/-- `[:\s]` character class of patterns like `prix[:\s]*(\d{1,6})`. -/
def isColonWs (c : Char) : Bool := c = ':' || isPyWs c

/-- `re.search`: try the position parser at every start position, left to
right (including the end-of-string position). -/
def scanPat {α : Type} (p : List Char → Option α) : List Char → Option α
  | [] => p []
  | c :: cs =>
    match p (c :: cs) with
    | some r => some r
    | none => scanPat p cs

/-- `r'(\d{1,6})\s*€'` at a position: (group 0, group 1). -/
def pricePat1At (cs : List Char) : Option (List Char × List Char) :=
  tryDigitsDown cs 6 (fun g rest =>
    let ws := rest.takeWhile isPyWs
    match rest.drop ws.length with
    | '€' :: _ => some (g ++ ws ++ ['€'], g)
    | _ => none)

/-- `r'€\s*(\d{1,6})'` at a position. -/
def pricePat2At (cs : List Char) : Option (List Char × List Char) :=
  match cs with
  | '€' :: rest =>
    let ws := rest.takeWhile isPyWs
    tryDigitsDown (rest.drop ws.length) 6 (fun g _ => some ('€' :: (ws ++ g), g))
  | _ => none

/-- `r'(\d{1,6})\s*eur'` at a position (IGNORECASE). -/
def pricePat3At (cs : List Char) : Option (List Char × List Char) :=
  tryDigitsDown cs 6 (fun g rest =>
    let ws := rest.takeWhile isPyWs
    match matchLitCI "eur".data (rest.drop ws.length) with
    | some (con, _) => some (g ++ ws ++ con, g)
    | none => none)

/-- `r'(\d{1,6})\s*dollars?'` at a position (IGNORECASE, greedy `s?`). -/
def pricePat4At (cs : List Char) : Option (List Char × List Char) :=
  tryDigitsDown cs 6 (fun g rest =>
    let ws := rest.takeWhile isPyWs
    match matchLitCI "dollar".data (rest.drop ws.length) with
    | some (con, rest2) =>
      match rest2 with
      | c :: _ =>
        if c.toLower = 's' then some (g ++ ws ++ con ++ [c], g)
        else some (g ++ ws ++ con, g)
      | [] => some (g ++ ws ++ con, g)
    | none => none)

/-- `r'\$\s*(\d{1,6})'` at a position. -/
def pricePat5At (cs : List Char) : Option (List Char × List Char) :=
  match cs with
  | '$' :: rest =>
    let ws := rest.takeWhile isPyWs
    tryDigitsDown (rest.drop ws.length) 6 (fun g _ => some ('$' :: (ws ++ g), g))
  | _ => none

/-- `r'(\d{1,6})\s*chf'` at a position (IGNORECASE). -/
def pricePat6At (cs : List Char) : Option (List Char × List Char) :=
  tryDigitsDown cs 6 (fun g rest =>
    let ws := rest.takeWhile isPyWs
    match matchLitCI "chf".data (rest.drop ws.length) with
    | some (con, _) => some (g ++ ws ++ con, g)
    | none => none)

/-- `r'(\d{1,6})\s*£'` at a position. -/
def pricePat7At (cs : List Char) : Option (List Char × List Char) :=
  tryDigitsDown cs 6 (fun g rest =>
    let ws := rest.takeWhile isPyWs
    match rest.drop ws.length with
    | '£' :: _ => some (g ++ ws ++ ['£'], g)
    | _ => none)

/-- `r'£\s*(\d{1,6})'` at a position. -/
def pricePat8At (cs : List Char) : Option (List Char × List Char) :=
  match cs with
  | '£' :: rest =>
    let ws := rest.takeWhile isPyWs
    tryDigitsDown (rest.drop ws.length) 6 (fun g _ => some ('£' :: (ws ++ g), g))
  | _ => none

/-- `r'prix[:\s]*(\d{1,6})'` at a position (IGNORECASE). -/
def pricePat9At (cs : List Char) : Option (List Char × List Char) :=
  match matchLitCI "prix".data cs with
  | some (con, rest) =>
    let fill := rest.takeWhile isColonWs
    tryDigitsDown (rest.drop fill.length) 6 (fun g _ => some (con ++ fill ++ g, g))
  | none => none

/-- `r'(\d{1,6})[,.](\d{2})\s*€'` at a position.  Group 1 is only the
integer part; group 2 (the cents) is captured by the regex but discarded
by the source, which converts `match.group(1)` alone. -/
def pricePat10At (cs : List Char) : Option (List Char × List Char) :=
  tryDigitsDown cs 6 (fun g rest =>
    match rest with
    | sep :: d1 :: d2 :: rest3 =>
      if (sep = ',' || sep = '.') && d1.isDigit && d2.isDigit then
        let ws := rest3.takeWhile isPyWs
        match rest3.drop ws.length with
        | '€' :: _ => some (g ++ [sep, d1, d2] ++ ws ++ ['€'], g)
        | _ => none
      else none
    | _ => none)

/-- The ordered `price_patterns` list (lines 57-68). -/
def price_patterns : List (List Char → Option (List Char × List Char)) :=
  [pricePat1At, pricePat2At, pricePat3At, pricePat4At, pricePat5At,
   pricePat6At, pricePat7At, pricePat8At, pricePat9At, pricePat10At]

/-- Digits to a number (`float(match.group(1))`; the captured group is
always pure digits, so `.replace(',', '.')` is a no-op and `float` cannot
raise). -/
def natOfDigits (ds : List Char) : Nat :=
  ds.foldl (fun n c => n * 10 + (c.toNat - 48)) 0

/-- Currency detection from `match.group(0)` (lines 203-211). -/
def detectCurrency (group0 : String) : String :=
  if strIn "€" group0 || strIn "eur" (pyLower group0) then "EUR"
  else if strIn "$" group0 || strIn "dollar" (pyLower group0) then "USD"
  else if strIn "£" group0 then "GBP"
  else if strIn "chf" (pyLower group0) then "CHF"
  else "EUR"

/-- Price-type detection from the whole message (lines 213-218). -/
def detectPriceType (message : String) : String :=
  let l := pyLower message
  if strIn "vendu" l || strIn "sold" l then "sold"
  else if strIn "négociable" l || strIn "obo" l then "negotiable"
  else "asking"

/-- `_extract_price` (lines 194-228): (amount, currency, type). -/
def extractPrice (message : String) : Option ℚ × String × String :=
  match price_patterns.findSome? (fun p => scanPat p message.data) with
  | none => (none, "EUR", "asking")
  | some (g0, g1) =>
    (some ((natOfDigits g1 : ℕ) : ℚ), detectCurrency (String.mk g0),
     detectPriceType message)

/-- The ordered `condition_patterns` buckets (lines 71-78; a Python dict,
iterated in insertion order). -/
def condition_patterns : List (String × List String) :=
  [("neuf", ["neuf", "new", "jamais porté", "unworn", "bnib", "brand new"]),
   ("excellent", ["excellent", "très bon état", "excellent condition", "mint"]),
   ("bon", ["bon état", "good condition", "bel état", "bien conservé"]),
   ("occasion", ["occasion", "used", "porté", "worn", "pre-owned"]),
   ("vintage", ["vintage", "ancien", "collection", "rare"]),
   ("box_papers", ["box", "papers", "boite", "papiers", "certificat", "garantie"])]

/-- `_extract_condition` (lines 230-235). -/
def extractCondition (messageLower : String) : Option String :=
  condition_patterns.findSome?
    (fun p => if p.2.any (fun k => strIn k messageLower) then some p.1 else none)

/-- Exactly `(\d{2})` at the head of `cs`. -/
def exactTwoDigits (cs : List Char) : Option (List Char × List Char) :=
  match cs with
  | d1 :: d2 :: rest =>
    if d1.isDigit && d2.isDigit then some ([d1, d2], rest) else none
  | _ => none

/-- `r'(\d{2})\s*mm'` at a position (IGNORECASE). -/
def sizePat1At (cs : List Char) : Option (List Char) :=
  match exactTwoDigits cs with
  | some (g, rest) =>
    let ws := rest.takeWhile isPyWs
    match matchLitCI "mm".data (rest.drop ws.length) with
    | some _ => some g
    | none => none
  | none => none

/-- `r'(\d{2})mm'` at a position (IGNORECASE). -/
def sizePat2At (cs : List Char) : Option (List Char) :=
  match exactTwoDigits cs with
  | some (g, rest) =>
    match matchLitCI "mm".data rest with
    | some _ => some g
    | none => none
  | none => none

/-- `r'diamètre[:\s]*(\d{2})'` at a position (IGNORECASE). -/
def sizePat3At (cs : List Char) : Option (List Char) :=
  match matchLitCI "diamètre".data cs with
  | some (_, rest) =>
    let fill := rest.takeWhile isColonWs
    (exactTwoDigits (rest.drop fill.length)).map (fun p => p.1)
  | none => none

/-- `r'taille[:\s]*(\d{2})'` at a position (IGNORECASE). -/
def sizePat4At (cs : List Char) : Option (List Char) :=
  match matchLitCI "taille".data cs with
  | some (_, rest) =>
    let fill := rest.takeWhile isColonWs
    (exactTwoDigits (rest.drop fill.length)).map (fun p => p.1)
  | none => none

/-- The ordered `size_patterns` list (lines 81-86). -/
def size_patterns : List (List Char → Option (List Char)) :=
  [sizePat1At, sizePat2At, sizePat3At, sizePat4At]

/-- `_extract_size` (lines 237-243): `f"{match.group(1)}mm"`. -/
def extractSize (message : String) : Option String :=
  size_patterns.findSome?
    (fun p => (scanPat p message.data).map (fun g => String.mk g ++ "mm"))

/-- The ordered `movement_patterns` buckets (lines 89-93). -/
def movement_patterns : List (String × List String) :=
  [("automatic", ["automatique", "automatic", "auto", "self-winding"]),
   ("quartz", ["quartz", "électronique", "electronic"]),
   ("manual", ["manuel", "manual", "mécanique", "mechanical", "hand-wind"])]

/-- `_extract_movement` (lines 245-250). -/
def extractMovement (messageLower : String) : Option String :=
  movement_patterns.findSome?
    (fun p => if p.2.any (fun k => strIn k messageLower) then some p.1 else none)

/-- Regex `\w` (ASCII approximation; Python also counts accented letters,
which never sit adjacent to a year candidate in the inputs used here). -/
def isWordChar (c : Char) : Bool := c.isAlphanum || c = '_'

/-- `(19\d{2}|20[0-3]\d)` followed by a `\b` at a position. -/
def yearAt (cs : List Char) : Option Nat :=
  match cs with
  | c1 :: c2 :: c3 :: c4 :: rest =>
    if c1 = '1' && c2 = '9' && c3.isDigit && c4.isDigit
        || c1 = '2' && c2 = '0' && (c3 = '0' || c3 = '1' || c3 = '2' || c3 = '3')
            && c4.isDigit then
      match rest with
      | [] => some (natOfDigits [c1, c2, c3, c4])
      | c5 :: _ => if isWordChar c5 then none else some (natOfDigits [c1, c2, c3, c4])
    else none
  | _ => none

/-- Scan for `r'\b(19\d{2}|20[0-3]\d)\b'`, tracking the previous character
for the leading word boundary. -/
def scanYear : Option Char → List Char → Option Nat
  | _, [] => none
  | prev, c :: cs =>
    let beforeOk := match prev with
      | none => true
      | some p => !isWordChar p
    match (if beforeOk then yearAt (c :: cs) else none) with
    | some y => some y
    | none => scanYear (some c) cs

/-- `_extract_year` (lines 252-262). -/
def extractYear (message : String) : Option Int :=
  match scanYear none message.data with
  | none => none
  | some y => if 1900 ≤ y ∧ y ≤ 2030 then some (y : Int) else none

def sale_keywords : List String :=
  ["vend", "vends", "à vendre", "for sale", "sell", "prix"]

def wanted_keywords : List String :=
  ["cherche", "recherche", "wanted", "wtb", "looking for"]

def trade_keywords : List String :=
  ["échange", "trade", "swap", "troc"]

def question_keywords : List String :=
  ["?", "question", "avis", "opinion", "help"]

/-- `_classify_message_type` (lines 272-288). -/
def classifyMessageType (messageLower : String) : String :=
  if sale_keywords.any (fun k => strIn k messageLower) then "sale"
  else if wanted_keywords.any (fun k => strIn k messageLower) then "wanted"
  else if trade_keywords.any (fun k => strIn k messageLower) then "trade"
  else if question_keywords.any (fun k => strIn k messageLower) then "question"
  else "general"

def auth_keywords : List String :=
  ["certificat", "authentique", "authentic", "genuine",
   "papers", "papiers", "garantie", "warranty", "box"]

/-- `_detect_authenticity` (lines 308-314). -/
def detectAuthenticity (messageLower : String) : Bool :=
  auth_keywords.any (fun k => strIn k messageLower)

/-- The `WatchInfo` dataclass (lines 17-38).  The `reference`, `location`
and `keywords` fields are omitted: no claim reads them and the confidence
score does not either. -/
structure WatchInfo where
  brand : Option String := none
  model : Option String := none
  price : Option ℚ := none
  currency : String := "EUR"
  price_type : Option String := none
  condition : Option String := none
  year : Option Int := none
  size : Option String := none
  movement_type : Option String := none
  authenticity_mentioned : Bool := false
  message_type : String := "general"
  confidence_score : ℚ := 0
deriving DecidableEq

/-- `_calculate_confidence_score` (lines 316-334): sequential `+=` on
Python-truthy fields, capped at 1.0. -/
def calculateConfidenceScore (info : WatchInfo) : ℚ :=
  let s0 : ℚ := 0
  let s1 := if optStrTruthy info.brand then s0 + 3/10 else s0
  let s2 := if optStrTruthy info.model then s1 + 2/10 else s1
  let s3 := if optRatTruthy info.price then s2 + 2/10 else s2
  let s4 := if optStrTruthy info.condition then s3 + 1/10 else s3
  let s5 := if optStrTruthy info.size then s4 + 1/10 else s4
  let s6 := if optIntTruthy info.year then s5 + 1/10 else s5
  min s6 1

/-- `extract_watch_info` of the pattern extractor (lines 103-162).  The
body's `try/except` never fires in this embedding (no sub-step can raise);
every field assignment follows the source order. -/
def extractPatternWatchInfo (message : String) : WatchInfo :=
  let messageLower := pyLower message
  let brand := extractBrand messageLower
  let model := extractModel message brand
  let priceData := extractPrice message
  let info : WatchInfo :=
    { brand := brand
      model := model
      price := priceData.1
      currency := priceData.2.1
      price_type := some priceData.2.2
      condition := extractCondition messageLower
      size := extractSize message
      movement_type := extractMovement messageLower
      year := extractYear message
      message_type := classifyMessageType messageLower
      authenticity_mentioned := detectAuthenticity messageLower }
  { info with confidence_score := calculateConfidenceScore info }

/-- Scenario A input of the spec. -/
def scenarioA : String :=
  "Vends Rolex Submariner 40mm automatique, excellent état, 8500€ avec boite et papiers"

/-- A concrete always-failing completion oracle (external call raises /
output unparseable). -/
def failingOracle : String → Option LLMMeta → Except String LLMResponse :=
  fun _ _ => .error "API timeout"

/-- A concrete always-succeeding completion oracle returning the empty
JSON object. -/
def okOracle : String → Option LLMMeta → Except String LLMResponse :=
  fun _ _ => .ok {}

/-! ## Theorems -/

/-! ### Theorems: C7, C8, C9 -/
/-- Bounds and clamp-identity for the sentiment formula over arbitrary counts. -/
theorem sentiment_formula_core (p n t : ℕ) (h : p + n + t ≠ 0) :
    (-1 : ℚ) ≤ ((p : ℚ) - (n : ℚ)) / ((p + n + t : ℕ) : ℚ) ∧
    ((p : ℚ) - (n : ℚ)) / ((p + n + t : ℕ) : ℚ) ≤ 1 := by
  have hpos : (0 : ℚ) < ((p + n + t : ℕ) : ℚ) := by
    exact_mod_cast Nat.pos_of_ne_zero h
  constructor
  · rw [le_div_iff₀ hpos]
    push_cast
    have hp : (0 : ℚ) ≤ (p : ℚ) := by positivity
    have ht : (0 : ℚ) ≤ (t : ℚ) := by positivity
    linarith
  · rw [div_le_one hpos]
    push_cast
    have hn : (0 : ℚ) ≤ (n : ℚ) := by positivity
    have ht : (0 : ℚ) ≤ (t : ℚ) := by positivity
    linarith

/-- C7: for every text, the sentiment score lies in [-1, 1]; whenever some
sentiment keyword occurs (denominator non-zero) it equals
(positive − negative) / (positive + negative + neutral); and it is 0 when no
keyword of the three lists occurs in the lowered text. -/
theorem sentiment_score_bounds_and_formula (content : String) :
    -1 ≤ calculateSentimentScore content ∧ calculateSentimentScore content ≤ 1 ∧
    (countHits positive_words (pyLower content) + countHits negative_words (pyLower content)
        + countHits neutral_words (pyLower content) ≠ 0 →
      calculateSentimentScore content =
        ((countHits positive_words (pyLower content) : ℚ)
            - (countHits negative_words (pyLower content) : ℚ))
          / ((countHits positive_words (pyLower content)
              + countHits negative_words (pyLower content)
              + countHits neutral_words (pyLower content) : ℕ) : ℚ)) ∧
    ((∀ w ∈ positive_words ++ negative_words ++ neutral_words,
        strIn w (pyLower content) = false) →
      calculateSentimentScore content = 0) := by
  have hform : calculateSentimentScore content =
      if countHits positive_words (pyLower content) + countHits negative_words (pyLower content)
          + countHits neutral_words (pyLower content) = 0 then (0 : ℚ)
      else max (-1) (min 1
        (((countHits positive_words (pyLower content) : ℚ)
            - (countHits negative_words (pyLower content) : ℚ))
          / ((countHits positive_words (pyLower content)
              + countHits negative_words (pyLower content)
              + countHits neutral_words (pyLower content) : ℕ) : ℚ))) := rfl
  have hkw : (∀ w ∈ positive_words ++ negative_words ++ neutral_words,
      strIn w (pyLower content) = false) →
      countHits positive_words (pyLower content) + countHits negative_words (pyLower content)
        + countHits neutral_words (pyLower content) = 0 := by
    intro habs
    have hcount : ∀ ws : List String,
        (∀ w ∈ ws, strIn w (pyLower content) = false) →
        countHits ws (pyLower content) = 0 := by
      intro ws hws
      simp only [countHits, List.length_eq_zero, List.filter_eq_nil_iff]
      intro w hw
      simp [hws w hw]
    have h1 := hcount positive_words (fun w hw => habs w (by simp [hw]))
    have h2 := hcount negative_words (fun w hw => habs w (by simp [hw]))
    have h3 := hcount neutral_words (fun w hw => habs w (by simp [hw]))
    omega
  by_cases hz : countHits positive_words (pyLower content)
      + countHits negative_words (pyLower content)
      + countHits neutral_words (pyLower content) = 0
  · rw [hform, if_pos hz]
    exact ⟨by norm_num, by norm_num, fun h => absurd hz h, fun _ => rfl⟩
  · obtain ⟨hlow, hup⟩ := sentiment_formula_core _ _ _ hz
    have hclamp : calculateSentimentScore content =
        ((countHits positive_words (pyLower content) : ℚ)
            - (countHits negative_words (pyLower content) : ℚ))
          / ((countHits positive_words (pyLower content)
              + countHits negative_words (pyLower content)
              + countHits neutral_words (pyLower content) : ℕ) : ℚ) := by
      rw [hform, if_neg hz, min_eq_right hup, max_eq_right hlow]
    rw [hclamp]
    exact ⟨hlow, hup, fun _ => rfl, fun habs => absurd (hkw habs) hz⟩

/-- C7 witness: instantiation at a concrete message. -/
theorem sentiment_score_bounds_and_formula_witness :
    -1 ≤ calculateSentimentScore "Vends Rolex excellent état" ∧
    calculateSentimentScore "Vends Rolex excellent état" ≤ 1 ∧
    (countHits positive_words (pyLower "Vends Rolex excellent état")
        + countHits negative_words (pyLower "Vends Rolex excellent état")
        + countHits neutral_words (pyLower "Vends Rolex excellent état") ≠ 0 →
      calculateSentimentScore "Vends Rolex excellent état" =
        ((countHits positive_words (pyLower "Vends Rolex excellent état") : ℚ)
            - (countHits negative_words (pyLower "Vends Rolex excellent état") : ℚ))
          / ((countHits positive_words (pyLower "Vends Rolex excellent état")
              + countHits negative_words (pyLower "Vends Rolex excellent état")
              + countHits neutral_words (pyLower "Vends Rolex excellent état") : ℕ) : ℚ)) ∧
    ((∀ w ∈ positive_words ++ negative_words ++ neutral_words,
        strIn w (pyLower "Vends Rolex excellent état") = false) →
      calculateSentimentScore "Vends Rolex excellent état" = 0) :=
  sentiment_score_bounds_and_formula "Vends Rolex excellent état"

/-- C8: for every text the urgency level is at most 5 (and, being a `Nat`,
at least 0), and it equals the additive formula: +3 for a high-urgency
keyword, +2 for at least two bangs else +1 for exactly one, +1 for a word
count below 10, capped at 5. -/
theorem urgency_level_bound_and_formula (content : String) :
    calculateUrgencyLevel content ≤ 5 ∧
    calculateUrgencyLevel content =
      min 5 ((if high_urgency_words.any (fun w => strIn w (pyLower content)) then 3 else 0)
        + (if 2 ≤ content.data.count '!' then 2
           else if content.data.count '!' = 1 then 1 else 0)
        + (if (pyWords content).length < 10 then 1 else 0)) := by
  refine ⟨Nat.min_le_left 5 _, ?_⟩
  show min 5 _ = _
  rcases Nat.lt_or_ge (content.data.count '!') 2 with hlt | hge
  · have h2 : ¬ 2 ≤ content.data.count '!' := by omega
    rcases Nat.eq_zero_or_pos (content.data.count '!') with h0 | hpos
    · have hnm : '!' ∉ content.data := List.count_eq_zero.mp h0
      have h1 : ¬ content.data.count '!' = 1 := by omega
      rw [if_neg h2, if_neg hnm, if_neg h2, if_neg h1]
      by_cases hw : (pyWords content).length < 10
      · rw [if_pos hw, if_pos hw]
      · rw [if_neg hw, if_neg hw]; simp
    · have hm : '!' ∈ content.data := List.count_pos_iff.mp hpos
      have h1 : content.data.count '!' = 1 := by omega
      rw [if_neg h2, if_pos hm, if_neg h2, if_pos h1]
      by_cases hw : (pyWords content).length < 10
      · rw [if_pos hw, if_pos hw]
      · rw [if_neg hw, if_neg hw]
  · have h2 : 2 ≤ content.data.count '!' := hge
    rw [if_pos h2, if_pos h2]
    by_cases hw : (pyWords content).length < 10
    · rw [if_pos hw, if_pos hw]
    · rw [if_neg hw, if_neg hw]

/-- C9: whenever the computed sentiment score is 0.0 (Python-falsy), the
persisted `sentiment_score` silently falls back to the extractor-supplied
field (in practice `None`, since neither extractor dataclass carries it),
and likewise a computed urgency of 0 falls back to the extractor's
`urgency_level` (default 0); so a neutral, non-urgent message is persisted
with `sentiment_score` null rather than 0.0. -/
theorem neutral_message_sentiment_fallback (content : String)
    (watchSentiment : Option ℚ) (watchUrgency : Option Nat)
    (hs : calculateSentimentScore content = 0)
    (hu : calculateUrgencyLevel content = 0) :
    storedSentimentScore content watchSentiment = watchSentiment ∧
    storedUrgencyLevel content watchUrgency = watchUrgency.getD 0 ∧
    storedSentimentScore content none = none := by
  refine ⟨?_, ?_, ?_⟩
  · simp [storedSentimentScore, hs]
  · simp [storedUrgencyLevel, hu]
  · simp [storedSentimentScore, hs]

/-- C1 counterexample: an extractor result with the default type
`"general"` and an active selling signal is persisted as `"general"`,
not as the intent-derived `"sale"` the claim predicts — `"general"` is a
non-empty string, so the truthiness test keeps it. -/
theorem merged_message_type_counterexample :
    mergedMessageType (some "general") { is_selling := true } = "general" ∧
    mergedMessageType (some "general") { is_selling := true } ≠ "sale" := by
  constructor
  · rfl
  · decide

/-- C1 amended: the persisted message_type equals the extractor's
message_type whenever that is present and non-empty — including the default
`"general"`; only when it is absent or empty does the intent-signal
precedence selling > seeking > question apply, with final default
`"general"`. -/
theorem merged_message_type_resolution (watchMessageType : Option String)
    (sig : IntentSignals) :
    (∀ t : String, watchMessageType = some t → t ≠ "" →
      mergedMessageType watchMessageType sig = t) ∧
    ((watchMessageType = none ∨ watchMessageType = some "") →
      mergedMessageType watchMessageType sig =
        (if sig.is_selling then "sale"
         else if sig.is_seeking then "wanted"
         else if sig.is_question then "question"
         else "general")) := by
  constructor
  · intro t ht hne
    subst ht
    simp [mergedMessageType, optStrTruthy, hne]
  · rintro (rfl | rfl) <;> simp [mergedMessageType, optStrTruthy]

/-- C1 amended witness: a non-default extractor type survives the merge,
and with no extractor result the selling/seeking precedence applies. -/
theorem merged_message_type_resolution_witness :
    mergedMessageType (some "wanted") { is_selling := true } = "wanted" ∧
    mergedMessageType none { is_seeking := true } = "wanted" := by
  refine ⟨(merged_message_type_resolution (some "wanted") { is_selling := true }).1
    "wanted" rfl (by decide), ?_⟩
  have h := (merged_message_type_resolution none { is_seeking := true }).2 (Or.inl rfl)
  simpa using h

/-- C10: every call preserves the invariant `size ≤ 100`, and inserting
into a full cache evicts exactly the oldest-inserted entry (FIFO). -/
theorem query_embedding_cache_bounded {α : Type}
    (oracle : String → Except String α) (cache : List (String × α))
    (query : String) (h : cache.length ≤ 100) :
    ((generateQueryEmbedding oracle cache query).2).length ≤ 100 ∧
    (cache.length = 100 → lookupCache cache query = none →
      ∀ emb, oracle (pyStrip query) = .ok emb →
        (generateQueryEmbedding oracle cache query).2 =
          cache.drop 1 ++ [(query, emb)]) := by
  cases hl : lookupCache cache query with
  | some e =>
    refine ⟨by simpa [generateQueryEmbedding, hl] using h, ?_⟩
    intro _ hnone
    exact absurd hnone (by simp)
  | none =>
    cases ho : oracle (pyStrip query) with
    | error e =>
      refine ⟨by simpa [generateQueryEmbedding, hl, ho] using h, ?_⟩
      intro _ _ emb hemb
      exact absurd hemb (by simp)
    | ok emb0 =>
      constructor
      · by_cases hfull : 100 ≤ cache.length
        · simp only [generateQueryEmbedding, hl, ho, if_pos hfull]
          simp [List.length_append, List.length_drop]
          omega
        · simp only [generateQueryEmbedding, hl, ho, if_neg hfull]
          simp [List.length_append]
          omega
      · intro hlen _ emb hemb
        have hembeq : emb0 = emb := by injection hemb
        subst hembeq
        have hfull : 100 ≤ cache.length := by omega
        simp only [generateQueryEmbedding, hl, ho, if_pos hfull]

/-- C10 witness: a miss on a full 100-entry cache stays at 100 entries and
evicts the oldest-inserted key. -/
theorem query_embedding_cache_bounded_witness :
    ((generateQueryEmbedding (fun _ => Except.ok 7) witnessCache "q").2).length ≤ 100 ∧
    (generateQueryEmbedding (fun _ => Except.ok 7) witnessCache "q").2 =
      witnessCache.drop 1 ++ [("q", 7)] := by
  have h100 : witnessCache.length = 100 := by
    simp [witnessCache]
  have h := query_embedding_cache_bounded (fun _ => Except.ok 7) witnessCache "q"
    (le_of_eq h100)
  exact ⟨h.1, h.2 h100 (by decide) 7 rfl⟩

theorem length_mk (l : List Char) : (String.mk l).length = l.length := rfl

theorem truncateTo_length_le (n : Nat) (s : String) : (truncateTo n s).length ≤ n := by
  show (s.data.take n).length ≤ n
  rw [List.length_take]
  exact Nat.min_le_left _ _

/-- C2 counterexample: with absent metadata the builder returns the
original text unchanged, so an 8001-character input yields an output
longer than the 8000-character budget. -/
theorem enhanced_text_length_cap_counterexample :
    8000 < (createEnhancedText (String.mk (List.replicate 8001 'a')) none).length := by
  show 8000 < (String.mk (List.replicate 8001 'a')).length
  rw [length_mk, List.length_replicate]
  norm_num

/-- C2 amended: the 8000-character budget holds for every original text
whenever the metadata argument is present (truthy); with absent/empty
metadata the builder returns the original text unchanged, so the cap holds
only if the original already fits. -/
theorem enhanced_text_length_cap (t : String) (m : EnhancedMeta) :
    (createEnhancedText t (some m)).length ≤ 8000 ∧
    createEnhancedText t none = t := by
  refine ⟨?_, rfl⟩
  simp only [createEnhancedText]
  by_cases h : 8000 < (assembledText t m).length
  · rw [if_pos h]
    exact truncateTo_length_le 8000 _
  · rw [if_neg h]
    omega

/-- C3 amended: when the assembled enhanced text exceeds the budget, the
builder rebuilds from the original text plus the priority tags — the group
tag when the message is a group message AND the first detected intent tag
when any intent was detected (both, not "group else intent") — and
hard-truncates the rebuilt string to 8000 characters. -/
theorem enhanced_text_priority_fallback (t : String) (m : EnhancedMeta)
    (h : 8000 < (assembledText t m).length) :
    createEnhancedText t (some m) =
      truncateTo 8000 (t ++ " " ++ pyJoin " "
        ((if m.is_group_message then
            ["[GROUPE: " ++ m.sender_profile_name.getD "Groupe" ++ "]"]
          else [])
          ++ (match detectedIntents m with
              | [] => []
              | i :: _ => ["[INTENTION: " ++ i ++ "]"]))) := by
  simp only [createEnhancedText]
  rw [if_pos h]
  simp [priorityTags, groupTag]

theorem cex_assembled_long : 8000 < (assembledText "salut" cexMeta).length := by
  have hparts : assembledParts "salut" cexMeta =
      ["salut", "[GROUPE: Club]",
       "[CONTEXTE: " ++ (bigIndicatorX ++ ", " ++ bigIndicatorY) ++ "]",
       "[EXPÉDITEUR: Club]", "[INTENTION: VENTE]"] := by
    simp [assembledParts, cexMeta, groupTag, detectedIntents, commercialContext,
      pyOrStr, optStrTruthy, pyJoin]
  have hx : bigIndicatorX.length = 4000 := by
    rw [bigIndicatorX, length_mk, List.length_replicate]
  have hy : bigIndicatorY.length = 4000 := by
    rw [bigIndicatorY, length_mk, List.length_replicate]
  rw [assembledText, hparts]
  simp only [pyJoin, String.length_append, hx, hy]
  decide

/-- C3 counterexample: on an over-budget assembled text for a group message
that also carries a selling intent, the rebuilt string contains BOTH the
group tag and the intent tag — not the single highest-priority tag the
claim describes. -/
theorem enhanced_text_priority_fallback_counterexample :
    createEnhancedText "salut" (some cexMeta) =
      "salut [GROUPE: Club] [INTENTION: VENTE]" ∧
    createEnhancedText "salut" (some cexMeta) ≠ "salut [GROUPE: Club]" := by
  have h := cex_assembled_long
  constructor
  · simp only [createEnhancedText]
    rw [if_pos h]
    decide
  · simp only [createEnhancedText]
    rw [if_pos h]
    decide

theorem wit_assembled_long : 8000 < (assembledText "coucou" witMeta).length := by
  have hparts : assembledParts "coucou" witMeta =
      ["coucou", "[GROUPE: Equipe]",
       "[CONTEXTE: " ++ (String.mk (List.replicate 4100 'z') ++ ", "
         ++ String.mk (List.replicate 4100 'w')) ++ "]",
       "[EXPÉDITEUR: Equipe]", "[INTENTION: RECHERCHE]"] := by
    simp [assembledParts, witMeta, groupTag, detectedIntents, commercialContext,
      pyOrStr, optStrTruthy, pyJoin]
  rw [assembledText, hparts]
  simp only [pyJoin, String.length_append, length_mk, List.length_replicate]
  decide

/-- C3 witness: the fallback theorem applied at a concrete over-budget
input. -/
theorem enhanced_text_priority_fallback_witness :
    createEnhancedText "coucou" (some witMeta) =
      truncateTo 8000 ("coucou" ++ " " ++ pyJoin " "
        ((if witMeta.is_group_message then
            ["[GROUPE: " ++ witMeta.sender_profile_name.getD "Groupe" ++ "]"]
          else [])
          ++ (match detectedIntents witMeta with
              | [] => []
              | i :: _ => ["[INTENTION: " ++ i ++ "]"]))) :=
  enhanced_text_priority_fallback "coucou" witMeta wit_assembled_long

/-- C9 witness: a concrete neutral, non-urgent message is stored with a
null sentiment score. -/
theorem neutral_message_sentiment_fallback_witness :
    storedSentimentScore "bonjour tout le monde comment allez vous ce matin mes amis" none = none ∧
    storedUrgencyLevel "bonjour tout le monde comment allez vous ce matin mes amis" none = 0 ∧
    storedSentimentScore "bonjour tout le monde comment allez vous ce matin mes amis" none = none := by
  have h := neutral_message_sentiment_fallback
    "bonjour tout le monde comment allez vous ce matin mes amis" none none
    (by decide) (by decide)
  exact ⟨h.1, h.2.1, h.2.2⟩

/-- C4: when the cache misses and the external completion call fails (a
raised exception or unparseable JSON output), `extract_watch_info` returns
a record whose confidence_score is 0.0 and whose reasoning field describes
the error; the exception is never propagated — the embedding is total by
construction (every branch returns a record). -/
theorem extract_error_returns_zero_confidence
    (oracle : String → Option LLMMeta → Except String LLMResponse)
    (cache : List (String × LLMWatchInfo)) (messageContent : String)
    (meta : Option LLMMeta) (e : String)
    (hmiss : lookupCache cache (generateCacheKey messageContent meta) = none)
    (herr : oracle messageContent meta = .error e) :
    (extractWatchInfo oracle cache messageContent meta).1.confidence_score = 0 ∧
    (extractWatchInfo oracle cache messageContent meta).1.llm_reasoning =
      some ("Erreur d'extraction: " ++ e) ∧
    (extractWatchInfo oracle cache messageContent meta).1 = extractionErrorInfo e := by
  simp [extractWatchInfo, hmiss, herr, extractionErrorInfo]

/-- C4 witness: a failing oracle on a fresh extractor yields the
zero-confidence error record. -/
theorem extract_error_returns_zero_confidence_witness :
    (extractWatchInfo failingOracle [] "Vends Rolex Daytona" none).1.confidence_score = 0 ∧
    (extractWatchInfo failingOracle [] "Vends Rolex Daytona" none).1.llm_reasoning =
      some ("Erreur d'extraction: " ++ "API timeout") ∧
    (extractWatchInfo failingOracle [] "Vends Rolex Daytona" none).1 =
      extractionErrorInfo "API timeout" :=
  extract_error_returns_zero_confidence failingOracle [] "Vends Rolex Daytona" none
    "API timeout" rfl rfl

/-- C5 counterexample: with a failing external call, two identical
`extract_watch_info` calls on a fresh extractor issue TWO external
completion calls, not at most one — the error record is never cached
(the `except` branch does not write `_extraction_cache`). -/
theorem model_extractor_cache_counterexample :
    ¬ ((extractTwice failingOracle "Vends Rolex" none).2.2 ≤ 1) := by
  decide

/-- C5 amended: provided the first call's external completion succeeds
(returns parseable JSON), two sequential `extract_watch_info` calls with
identical (text, context) on a fresh extractor issue exactly one external
completion call, and the second call returns a record equal to the first
(a cache hit on the key derived from the message text plus the profile
name and group flag of a truthy metadata dict). -/
theorem model_extractor_cache_hit
    (oracle : String → Option LLMMeta → Except String LLMResponse)
    (messageContent : String) (meta : Option LLMMeta) (resp : LLMResponse)
    (hok : oracle messageContent meta = .ok resp) :
    (extractTwice oracle messageContent meta).2.2 = 1 ∧
    (extractTwice oracle messageContent meta).2.1 =
      (extractTwice oracle messageContent meta).1 ∧
    (extractTwice oracle messageContent meta).1 = convertLLMResponse resp := by
  have h1 : extractWatchInfo oracle [] messageContent meta =
      (convertLLMResponse resp,
       [(generateCacheKey messageContent meta, convertLLMResponse resp)], 1) := by
    simp [extractWatchInfo, hok, lookupCache]
  have h2 : extractWatchInfo oracle
      [(generateCacheKey messageContent meta, convertLLMResponse resp)]
      messageContent meta =
      (convertLLMResponse resp,
       [(generateCacheKey messageContent meta, convertLLMResponse resp)], 0) := by
    simp [extractWatchInfo, lookupCache]
  simp [extractTwice, h1, h2]

/-- C5 amended witness: a succeeding oracle on a concrete message — one
external call in total and identical results. -/
theorem model_extractor_cache_hit_witness :
    (extractTwice okOracle "Vends Omega Speedmaster" none).2.2 = 1 ∧
    (extractTwice okOracle "Vends Omega Speedmaster" none).2.1 =
      (extractTwice okOracle "Vends Omega Speedmaster" none).1 ∧
    (extractTwice okOracle "Vends Omega Speedmaster" none).1 =
      convertLLMResponse {} :=
  model_extractor_cache_hit okOracle "Vends Omega Speedmaster" none {} rfl

/-- C6: on "Vends Rolex Submariner 40mm automatique, excellent état,
8500€ avec boite et papiers" the pattern extractor returns brand "Rolex",
price 8500.0 EUR, size "40mm", condition "excellent", message_type "sale",
and confidence 0.3+0.2+0.2+0.1+0.1 = 0.9 (brand, model, price, condition
and size present; year absent). -/
theorem pattern_extractor_scenario_a :
    (extractPatternWatchInfo scenarioA).brand = some "Rolex" ∧
    (extractPatternWatchInfo scenarioA).price = some 8500 ∧
    (extractPatternWatchInfo scenarioA).currency = "EUR" ∧
    (extractPatternWatchInfo scenarioA).size = some "40mm" ∧
    (extractPatternWatchInfo scenarioA).condition = some "excellent" ∧
    (extractPatternWatchInfo scenarioA).message_type = "sale" ∧
    (extractPatternWatchInfo scenarioA).year = none ∧
    (extractPatternWatchInfo scenarioA).confidence_score = 9/10 := by
  have hfields : extractPatternWatchInfo scenarioA =
      { brand := some "Rolex"
        model := some "Submariner 40mm automatique,"
        price := some ((8500 : ℕ) : ℚ)
        currency := "EUR"
        price_type := some "asking"
        condition := some "excellent"
        year := none
        size := some "40mm"
        movement_type := some "automatic"
        authenticity_mentioned := true
        message_type := "sale"
        confidence_score := min (0 + 3/10 + 2/10 + 2/10 + 1/10 + 1/10) 1 } := by
    rfl
  rw [hfields]
  refine ⟨rfl, by norm_num, rfl, rfl, rfl, rfl, rfl, by norm_num⟩

end WhatsappServer
